import Mathlib

/-!
Verification of the `concurrent-streams` library (ConcurrentStream
coordinator plus ReadStream/WriteStream adapters) against its
natural-language specification.  The repository contains several
historical variants of the coordinator; the namespaces V1, V2 and V3
below embed, respectively, the first, second and third (Emittery-based)
variant of `src/stream.ts`.  Adapter code is embedded from
`src/read-stream.ts` and `src/write-stream.ts`.
-/

deriving instance DecidableEq for Except

namespace CS

/-- Opaque payload of a rejected OS-level fs call (open/close/read/write). -/
abbrev OsErr := Nat

/-- Error sentinels surfaced to consumers, plus wrapped OS errors. -/
inductive Err : Type
  | invalidRefCount
  | invalidOffset
  | os (e : OsErr)
deriving Repr, DecidableEq

/-- Lifecycle notifications emitted by the coordinator. -/
inductive Ev : Type
  | openEv (fd : Int)
  | closeEv
  | errorEv (e : Err)
deriving Repr, DecidableEq

namespace V3

/-- State of the third-variant `ConcurrentStream`: `fd` uses the `-1`
sentinel for "not open", `refCount` counts live adapters, `autoClose`
is the construction-time policy. -/
structure CoordState : Type where
  fd : Int
  refCount : Int
  autoClose : Bool
deriving Repr, DecidableEq

/-- Constructor tail of the third variant: `this.fd = options.fd!` with
default `-1`, `this.autoClose = options.autoClose!` with default `true`. -/
def construct (fdOpt : Option Int) (autoCloseOpt : Option Bool) : CoordState :=
  { fd := fdOpt.getD (-1), refCount := 0, autoClose := autoCloseOpt.getD true }

/-- `ref()`: increments the reference count. -/
def ref (s : CoordState) : CoordState :=
  { s with refCount := s.refCount + 1 }

/-- Result of `open()` / `close()` style coordinator calls: next state,
emitted notifications, number of OS calls performed, and the outcome the
caller awaits (`.error` models a rejected promise). -/
structure CallOut : Type where
  s : CoordState
  events : List Ev
  osCalls : Nat
  result : Except OsErr Unit
deriving Repr, DecidableEq

/-- `open()` of the third variant: if `fd >= 0`, return immediately with
no OS call and no notification; otherwise await the OS open (outcome
`osOpen`), store the fd and emit `open(fd)`.  A rejected OS open
propagates to the awaiting caller. -/
def openFd (osOpen : Except OsErr Int) (s : CoordState) : CallOut :=
  if 0 ≤ s.fd then ⟨s, [], 0, .ok ()⟩
  else
    match osOpen with
    | .error e => ⟨s, [], 1, .error e⟩
    | .ok fd => ⟨{ s with fd := fd }, [.openEv fd], 1, .ok ()⟩

/-- `close()` of the third variant: no-op if `fd < 0`; otherwise await
the OS close, reset `fd` to `-1` and emit `close`.  On a rejected OS
close the fd is left untouched (the reset sits after the await) and the
rejection propagates. -/
def close (osClose : Except OsErr Unit) (s : CoordState) : CallOut :=
  if s.fd < 0 then ⟨s, [], 0, .ok ()⟩
  else
    match osClose with
    | .error e => ⟨s, [], 1, .error e⟩
    | .ok _ => ⟨{ s with fd := -1 }, [.closeEv], 1, .ok ()⟩

/-- `unref()` of the third variant: decrement `refCount`; if negative,
emit `error(ErrInvalidRefCount)`; if still positive or `autoClose` is
off, return silently; otherwise emit `close` directly when the fd is not
open, else run `close()` and turn its rejection into an `error`
notification (the `.catch` handler).  Returns the next state, the
emitted notifications and the number of OS close calls performed. -/
def unref (osClose : Except OsErr Unit) (s : CoordState) : CoordState × List Ev × Nat :=
  let rc := s.refCount - 1
  let s1 : CoordState := { s with refCount := rc }
  if rc < 0 then (s1, [.errorEv .invalidRefCount], 0)
  else if 0 < rc ∨ ¬ s.autoClose then (s1, [], 0)
  else if s1.fd < 0 then (s1, [.closeEv], 0)
  else
    match close osClose s1 with
    | ⟨s2, evs, n, .ok _⟩ => (s2, evs, n)
    | ⟨s2, evs, n, .error e⟩ => (s2, evs ++ [.errorEv (.os e)], n)

/-- Result of a third-variant `read`/`write` call: next state, emitted
notifications, awaited outcome (bytes transferred or rejection), OS
open/read-or-write call counts, and lock acquire/release counts. -/
structure IOOut : Type where
  s : CoordState
  events : List Ev
  result : Except OsErr Nat
  osOpenCalls : Nat
  osIOCalls : Nat
  lockAcquired : Nat
  lockReleased : Nat
deriving Repr, DecidableEq

/-- `read(buffer, position)` of the third variant, single-call
semantics: `Promise.all([lock.readLock(), open()])`, then one OS read
over the whole buffer, with `finally { lock.unlock() }` releasing the
lock on every exit path.  A rejected open or OS read propagates to the
caller; no notification is emitted on failure. -/
def read (osOpen : Except OsErr Int) (osRead : Except OsErr Nat)
    (s : CoordState) : IOOut :=
  match openFd osOpen s with
  | ⟨s1, evs, n, .error e⟩ => ⟨s1, evs, .error e, n, 0, 1, 1⟩
  | ⟨s1, evs, n, .ok _⟩ =>
    match osRead with
    | .error e => ⟨s1, evs, .error e, n, 1, 1, 1⟩
    | .ok k => ⟨s1, evs, .ok k, n, 1, 1, 1⟩

/-- `write(buffer, position)` of the third variant; mirrors `read` with
the write lock and one OS write call. -/
def write (osOpen : Except OsErr Int) (osWrite : Except OsErr Nat)
    (s : CoordState) : IOOut :=
  match openFd osOpen s with
  | ⟨s1, evs, n, .error e⟩ => ⟨s1, evs, .error e, n, 0, 1, 1⟩
  | ⟨s1, evs, n, .ok _⟩ =>
    match osWrite with
    | .error e => ⟨s1, evs, .error e, n, 1, 1, 1⟩
    | .ok k => ⟨s1, evs, .ok k, n, 1, 1, 1⟩

end V3

namespace V1

/-- Result of a first-variant `readAsync`/`writeAsync` call: next fd
(`none` models `null`), emitted notifications, awaited outcome, OS
open and read/write call counts, lock acquire/release counts, and how
many times the caller-supplied cancellation predicate was evaluated. -/
structure AsyncOut : Type where
  fd : Option Int
  events : List Ev
  result : Except OsErr Nat
  osOpenCalls : Nat
  osIOCalls : Nat
  lockAcquired : Nat
  lockReleased : Nat
  cancelChecks : Nat
deriving Repr, DecidableEq

/-- `openAsync()` of the first variant: no-op when the fd is a number;
otherwise await the OS open, store the fd and emit `open(fd)`; a
rejected OS open propagates (no catch). -/
def openAsync (osOpen : Except OsErr Int) (fd : Option Int) :
    Option Int × List Ev × Nat × Except OsErr Unit :=
  match fd with
  | some _ => (fd, [], 0, .ok ())
  | none =>
    match osOpen with
    | .error e => (none, [], 1, .error e)
    | .ok f => (some f, [.openEv f], 1, .ok ())

/-- `readAsync(...)` of the first variant: evaluates the cancellation
predicate once before lock acquisition and returns 0 when it reports
true; otherwise acquires the read lock, runs `openAsync`, performs one
OS read and releases the lock in `finally` on every path.  `cancels`
is `none` when no predicate was supplied. -/
def readAsync (cancels : Option Bool) (osOpen : Except OsErr Int)
    (osRead : Except OsErr Nat) (fd : Option Int) : AsyncOut :=
  let checks : Nat := if cancels.isSome then 1 else 0
  if cancels = some true then ⟨fd, [], .ok 0, 0, 0, 0, 0, checks⟩
  else
    match openAsync osOpen fd with
    | (fd1, evs, n, .error e) => ⟨fd1, evs, .error e, n, 0, 1, 1, checks⟩
    | (fd1, evs, n, .ok _) =>
      match osRead with
      | .error e => ⟨fd1, evs, .error e, n, 1, 1, 1, checks⟩
      | .ok k => ⟨fd1, evs, .ok k, n, 1, 1, 1, checks⟩

/-- `writeAsync(...)` of the first variant; mirrors `readAsync` with the
write lock and one OS write call. -/
def writeAsync (cancels : Option Bool) (osOpen : Except OsErr Int)
    (osWrite : Except OsErr Nat) (fd : Option Int) : AsyncOut :=
  let checks : Nat := if cancels.isSome then 1 else 0
  if cancels = some true then ⟨fd, [], .ok 0, 0, 0, 0, 0, checks⟩
  else
    match openAsync osOpen fd with
    | (fd1, evs, n, .error e) => ⟨fd1, evs, .error e, n, 0, 1, 1, checks⟩
    | (fd1, evs, n, .ok _) =>
      match osWrite with
      | .error e => ⟨fd1, evs, .error e, n, 1, 1, 1, checks⟩
      | .ok k => ⟨fd1, evs, .ok k, n, 1, 1, 1, checks⟩

end V1

namespace V2

/-- Result of a second-variant `readAsync`/`writeAsync` call.  The
awaited outcome is `Option Nat`: `none` models resolving with
`undefined` (the bare `return;` on cancellation and the swallowed-error
path), `some k` models `k` bytes transferred. -/
structure AsyncOut : Type where
  fd : Option Int
  events : List Ev
  result : Option Nat
  osOpenCalls : Nat
  osIOCalls : Nat
  lockAcquired : Nat
  lockReleased : Nat
  cancelChecks : Nat
deriving Repr, DecidableEq

/-- `openAsync()` of the second variant: no-op when the fd is a number;
otherwise await the OS open and emit `open(fd)`, but catch any failure
and emit it as an `error` notification (never rejects). -/
def openAsync (osOpen : Except OsErr Int) (fd : Option Int) :
    Option Int × List Ev × Nat :=
  match fd with
  | some _ => (fd, [], 0)
  | none =>
    match osOpen with
    | .error e => (none, [.errorEv (.os e)], 1)
    | .ok f => (some f, [.openEv f], 1)

/-- `readAsync(...)` of the second variant: on cancellation it resolves
with `undefined` (bare `return;`); otherwise it acquires the read lock,
runs `openAsync`, performs one OS read, and catches any failure,
emitting it as an `error` notification and resolving with `undefined`;
the lock is released in `finally` on every path. -/
def readAsync (cancels : Option Bool) (osOpen : Except OsErr Int)
    (osRead : Except OsErr Nat) (fd : Option Int) : AsyncOut :=
  let checks : Nat := if cancels.isSome then 1 else 0
  if cancels = some true then ⟨fd, [], none, 0, 0, 0, 0, checks⟩
  else
    match openAsync osOpen fd with
    | (fd1, evs, n) =>
      match osRead with
      | .error e => ⟨fd1, evs ++ [.errorEv (.os e)], none, n, 1, 1, 1, checks⟩
      | .ok k => ⟨fd1, evs, some k, n, 1, 1, 1, checks⟩

/-- `writeAsync(...)` of the second variant; mirrors `readAsync` with
the write lock and one OS write call. -/
def writeAsync (cancels : Option Bool) (osOpen : Except OsErr Int)
    (osWrite : Except OsErr Nat) (fd : Option Int) : AsyncOut :=
  let checks : Nat := if cancels.isSome then 1 else 0
  if cancels = some true then ⟨fd, [], none, 0, 0, 0, 0, checks⟩
  else
    match openAsync osOpen fd with
    | (fd1, evs, n) =>
      match osWrite with
      | .error e => ⟨fd1, evs ++ [.errorEv (.os e)], none, n, 1, 1, 1, checks⟩
      | .ok k => ⟨fd1, evs, some k, n, 1, 1, 1, checks⟩

end V2

namespace Race

/-- Program counter of one in-flight third-variant `read` call.
`start`: the call is about to run its synchronous prefix, i.e. evaluate
`Promise.all([this.lock.readLock(), this.open()])`, which runs `open()`
up to its first await (the `fd >= 0` check, and the initiation of the
OS open when it fails).  `awaitingOpen`: this call started an OS open
that has not yet completed.  `awaitingLock`: the call is waiting for
its read lock / joined promise.  `fin`: the call has proceeded to its
OS read. -/
inductive RPC : Type
  | start
  | awaitingOpen
  | awaitingLock
  | fin
deriving Repr, DecidableEq

/-- Global state of two concurrent third-variant `read` calls against
one coordinator: the shared `fd`, the number of OS open calls invoked
so far, and each call's program counter.  Read locks are shared, so the
lock never blocks a reader and is not part of the state. -/
structure Sys : Type where
  fd : Int
  osOpens : Nat
  pc0 : RPC
  pc1 : RPC
deriving Repr, DecidableEq

/-- Advance call `i` by one scheduler step, following the JS semantics
of the third variant: the `start` step atomically runs the fd check and,
when `fd < 0`, invokes the OS open primitive (one more OS open call);
the `awaitingOpen` step completes that OS open, storing a fresh
descriptor; the `awaitingLock` step resolves the joined promise. -/
def step (i : Fin 2) (s : Sys) : Sys :=
  let pc := if i = 0 then s.pc0 else s.pc1
  let setPc := fun (s2 : Sys) (p : RPC) =>
    if i = 0 then { s2 with pc0 := p } else { s2 with pc1 := p }
  match pc with
  | .start =>
    if 0 ≤ s.fd then setPc s .awaitingLock
    else setPc { s with osOpens := s.osOpens + 1 } .awaitingOpen
  | .awaitingOpen => setPc { s with fd := 100 + (i : Int) } .awaitingLock
  | .awaitingLock => setPc s .fin
  | .fin => s

/-- Run a schedule: a list of call identifiers, executed left to right. -/
def run (sched : List (Fin 2)) (s : Sys) : Sys :=
  sched.foldl (fun s2 i => step i s2) s

/-- Initial state: fd not yet set, no OS open performed, both first
`read` calls pending. -/
def init : Sys := ⟨-1, 0, .start, .start⟩

end Race

namespace JS

/-- A JavaScript number as far as the option validators observe it:
`NaN`, the two infinities, or a finite value (the adapters only ever
use integral offsets). -/
inductive JSNum : Type
  | nan
  | inf
  | negInf
  | fin (v : Int)
deriving Repr, DecidableEq

/-- A supplied option value: either not a number (wrong type, including
an explicit `undefined` override) or a number. -/
inductive JSVal : Type
  | notNum
  | num (x : JSNum)
deriving Repr, DecidableEq

/-- `isNaN(x)` for our number model. -/
def isNaNb : JSNum → Bool
  | .nan => true
  | _ => false

/-- `x < 0` in JS (false for `NaN`). -/
def ltZero : JSNum → Bool
  | .nan => false
  | .inf => false
  | .negInf => true
  | .fin v => decide (v < 0)

/-- `isFinite(x)` (false for `NaN` and the infinities). -/
def isFiniteB : JSNum → Bool
  | .fin _ => true
  | _ => false

/-- `x > y` in JS (false whenever either side is `NaN`). -/
def jsGt : JSNum → JSNum → Bool
  | .nan, _ => false
  | _, .nan => false
  | .inf, .inf => false
  | .inf, _ => true
  | .negInf, _ => false
  | .fin _, .inf => false
  | .fin _, .negInf => true
  | .fin a, .fin b => decide (b < a)

/-- Kinds of validation failure thrown by the option validators. -/
inductive VError : Type
  | typeErr
  | rangeErr
deriving Repr, DecidableEq

/-- Finite payload of a validated number (validators only return `fin`
values in the positions where this is used). -/
def finVal : JSNum → Int
  | .fin v => v
  | _ => 0

/-- Inclusive end bound as the adapters store it: `none` for an
unbounded (`Infinity`) end. -/
def endBound : JSNum → Option Int
  | .fin v => some v
  | _ => none

end JS

namespace RS

open JS

/-- `applyDefaultOptions` of `src/read-stream.ts`: merge over defaults
`start = 0`, `end = Infinity`, then in order: `start` must be a
non-`NaN` number (TypeError), `end` must be a non-`NaN` number
(TypeError), `start`/`end` must be nonnegative (RangeError), `start`
must be finite (TypeError), and `start > end` is rejected
(RangeError).  `none` models an absent field. -/
def applyDefaultOptions (startO endO : Option JSVal) :
    Except VError (JSNum × JSNum) :=
  match startO.getD (JSVal.num (JSNum.fin 0)) with
  | .notNum => .error .typeErr
  | .num sx =>
    if isNaNb sx then .error .typeErr
    else
      match endO.getD (JSVal.num JSNum.inf) with
      | .notNum => .error .typeErr
      | .num ex =>
        if isNaNb ex then .error .typeErr
        else if ltZero sx || ltZero ex then .error .rangeErr
        else if !(isFiniteB sx) then .error .typeErr
        else if jsGt sx ex then .error .rangeErr
        else .ok (sx, ex)

/-- Adapter state of a `ReadStream`: cursor, optional inclusive end
bound, and the idempotent-unref guard. -/
structure RSState : Type where
  current : Int
  endB : Option Int
  closed : Bool
deriving Repr, DecidableEq

/-- `ReadStream` constructor: calls `context.ref()` first, then
validates the options (which may throw), then initializes
`current = start` and `end`.  Returns the coordinator state after the
constructor ran and the construction outcome. -/
def construct (ctx : V3.CoordState) (startO endO : Option JSVal) :
    V3.CoordState × Except VError RSState :=
  let ctx1 := V3.ref ctx
  match applyDefaultOptions startO endO with
  | .error e => (ctx1, .error e)
  | .ok (sx, ex) => (ctx1, .ok ⟨finVal sx, endBound ex, false⟩)

/-- Terminal action of one pull step. -/
inductive ROutcome : Type
  | finalized
  | errored (e : OsErr)
  | pushed (newCurrent : Int) (delivered : Int)
deriving Repr, DecidableEq

/-- Result of one pull step: next adapter state, length requested from
the coordinator (`none` when no I/O was performed), and the action. -/
structure ReadOut : Type where
  st : RSState
  requested : Option Int
  outcome : ROutcome
deriving Repr, DecidableEq

/-- `size = Math.min(size, this.end - this.position + 1)`; with an
unbounded end the minimum against `Infinity` is `size` itself. -/
def toRead (size : Int) (st : RSState) : Int :=
  match st.endB with
  | none => size
  | some e => min size (e - st.current + 1)

/-- One pull step of `ReadStream` (the `_read` method): clamp the
requested size to the end bound; finalize without I/O when the clamped
size is not positive; otherwise perform one coordinator read of exactly
that many bytes: a failure destroys the adapter with that error, zero
bytes read finalizes (end of file), and `k > 0` bytes advance `current`
by `k` and push exactly the bytes read (sliced when short, whole buffer
otherwise) downstream. -/
def readStep (osRead : Except OsErr Nat) (size : Int) (st : RSState) : ReadOut :=
  let sz := toRead size st
  if sz ≤ 0 then ⟨{ st with closed := true }, none, .finalized⟩
  else
    match osRead with
    | .error e => ⟨{ st with closed := true }, some sz, .errored e⟩
    | .ok 0 => ⟨{ st with closed := true }, some sz, .finalized⟩
    | .ok (k + 1) =>
      let kz : Int := (k : Int) + 1
      ⟨{ st with current := st.current + kz }, some sz,
        .pushed (st.current + kz) (if kz < sz then kz else sz)⟩

end RS

namespace Util

open JS

/-- `applyDefaultOptions` of `src/util.ts`: identical to the
read-stream validator except that negative `start`/`end` values are
rejected with a TypeError rather than a RangeError. -/
def applyDefaultOptions (startO endO : Option JSVal) :
    Except VError (JSNum × JSNum) :=
  match startO.getD (JSVal.num (JSNum.fin 0)) with
  | .notNum => .error .typeErr
  | .num sx =>
    if isNaNb sx then .error .typeErr
    else
      match endO.getD (JSVal.num JSNum.inf) with
      | .notNum => .error .typeErr
      | .num ex =>
        if isNaNb ex then .error .typeErr
        else if ltZero sx || ltZero ex then .error .typeErr
        else if !(isFiniteB sx) then .error .typeErr
        else if jsGt sx ex then .error .rangeErr
        else .ok (sx, ex)

end Util

namespace WS1

/-- Adapter state of the first-variant `WriteStream`: cursor `pos`,
optional inclusive end bound (`none` for the `Infinity` default), the
destroy guard, and the running `bytesWritten` total. -/
structure WST : Type where
  pos : Int
  endB : Option Int
  closed : Bool
  bytesWritten : Int
deriving Repr, DecidableEq

/-- How `_actualWrite` invoked its completion callback. -/
inductive CbOut : Type
  | notCalled
  | success
  | failed (e : Err)
deriving Repr, DecidableEq

/-- Result of one `_actualWrite` step: next adapter state, callback
outcome, number of coordinator/OS write calls performed, and the
`progress` notifications emitted (each carrying the running total). -/
structure WOut : Type where
  st : WST
  cb : CbOut
  osWrites : Nat
  progress : List Int
deriving Repr, DecidableEq

/-- `this.pos + buffer.length > this.options.end` with the JS
comparison against the `Infinity` default being always false. -/
def endExceeded (x : Int) (endB : Option Int) : Bool :=
  match endB with
  | none => false
  | some e => decide (e < x)

/-- One write step of the first-variant `WriteStream`
(the `_actualWrite` method, shared by `_write` and `_writev`): a
destroyed stream ignores the chunk; a chunk crossing the end bound
destroys the stream and fails the callback with `ErrInvalidOffset`
without any write call; otherwise one coordinator write is performed,
advancing `pos` and `bytesWritten` by the bytes actually written and
emitting `progress`, and a write failure destroys the stream and fails
the callback with that error. -/
def actualWrite (osWrite : Except OsErr Nat) (len : Nat) (st : WST) : WOut :=
  if st.closed then ⟨st, .notCalled, 0, []⟩
  else if endExceeded (st.pos + (len : Int)) st.endB then
    ⟨{ st with closed := true }, .failed .invalidOffset, 0, []⟩
  else
    match osWrite with
    | .error e => ⟨{ st with closed := true }, .failed (.os e), 1, []⟩
    | .ok n =>
      ⟨{ st with pos := st.pos + (n : Int),
                 bytesWritten := st.bytesWritten + (n : Int) },
        .success, 1, [st.bytesWritten + (n : Int)]⟩

end WS1

namespace WS2

open JS

/-- `applyDefaultOptions` of the second-variant `WriteStream`:
`encoding` must be a valid `Buffer` encoding (TypeError), `start` must
be a finite number (TypeError) and nonnegative (RangeError).  `encOk`
models `Buffer.isEncoding` on the supplied encoding, `none` meaning the
field was absent (the `utf8` default, which is valid). -/
def applyDefaultOptions (encOk : Option Bool) (startO : Option JSVal) :
    Except VError Int :=
  if encOk.getD true = false then .error .typeErr
  else
    match startO.getD (JSVal.num (JSNum.fin 0)) with
    | .notNum => .error .typeErr
    | .num sx =>
      if !(isFiniteB sx) then .error .typeErr
      else if ltZero sx then .error .rangeErr
      else .ok (finVal sx)

/-- Second-variant `WriteStream` constructor: calls `context.ref()`
first, then validates the options (which may throw), then initializes
`current = start`.  Returns the coordinator state after the constructor
ran and the construction outcome (`current` on success). -/
def construct (ctx : V3.CoordState) (encOk : Option Bool)
    (startO : Option JSVal) : V3.CoordState × Except VError Int :=
  let ctx1 := V3.ref ctx
  match applyDefaultOptions encOk startO with
  | .error e => (ctx1, .error e)
  | .ok s => (ctx1, .ok s)

end WS2

end CS

/-- Event log of one concrete third-variant coordinator lifetime:
constructed with a caller-supplied fd 5 and the default `autoClose`,
one adapter refs and unrefs (auto-close closes fd 5 and resets the fd
sentinel), then a later first read lazily reopens.  Used by C8. -/
def c8Trace : List CS.Ev :=
  let s0 := CS.V3.construct (some 5) none
  let s1 := CS.V3.ref s0
  let u := CS.V3.unref (.ok ()) s1
  let r := CS.V3.read (.ok 7) (.ok 10) u.1
  u.2.1 ++ r.events

/-- Helper: third-variant `open()` with the fd already set is a no-op. -/
theorem v3_openFd_pos (s : CS.V3.CoordState) (osOpen : Except CS.OsErr Int)
    (h : 0 ≤ s.fd) : CS.V3.openFd osOpen s = ⟨s, [], 0, .ok ()⟩ := by
  simp [CS.V3.openFd, h]

/-- Helper: third-variant `open()` with the fd unset and a succeeding OS
open stores the fd and emits `open(fd)`. -/
theorem v3_openFd_neg_ok (s : CS.V3.CoordState) (f : Int)
    (h : ¬ 0 ≤ s.fd) :
    CS.V3.openFd (.ok f) s = ⟨{ s with fd := f }, [.openEv f], 1, .ok ()⟩ := by
  simp [CS.V3.openFd, h]

/-- Helper: third-variant `open()` with the fd unset and a rejected OS
open propagates the rejection and emits nothing. -/
theorem v3_openFd_neg_error (s : CS.V3.CoordState) (e : CS.OsErr)
    (h : ¬ 0 ≤ s.fd) :
    CS.V3.openFd (.error e) s = ⟨s, [], 1, .error e⟩ := by
  simp [CS.V3.openFd, h]

/-- C7: an `unref()` call when `refCount` is already 0 emits exactly one
`InvalidRefCount` error notification, performs no OS close call and no
close notification, returns normally (the model is a total function),
and changes nothing but the counter. -/
theorem c7_unref_without_matching_ref (s : CS.V3.CoordState)
    (oc : Except CS.OsErr Unit) (h : s.refCount = 0) :
    CS.V3.unref oc s =
      ({ s with refCount := -1 }, [CS.Ev.errorEv CS.Err.invalidRefCount], 0) := by
  simp only [CS.V3.unref, h]
  norm_num

/-- Witness for C7 at a concrete coordinator state. -/
theorem c7_witness :
    (⟨5, 0, true⟩ : CS.V3.CoordState).refCount = 0 ∧
    CS.V3.unref (.ok ()) ⟨5, 0, true⟩ =
      (⟨5, -1, true⟩, [CS.Ev.errorEv CS.Err.invalidRefCount], 0) :=
  ⟨rfl, c7_unref_without_matching_ref ⟨5, 0, true⟩ (.ok ()) rfl⟩

/-- C2 counterexample: an `unref()` bringing `refCount` to 0 with
`autoClose` disabled emits no notification at all — in particular no
`close` notification, contrary to the claim — and performs no OS close
call. -/
theorem c2_counterexample :
    CS.V3.unref (.ok ()) ⟨5, 1, false⟩ = (⟨5, 0, false⟩, [], 0) ∧
    CS.Ev.closeEv ∉ (CS.V3.unref (.ok ()) ⟨5, 1, false⟩).2.1 := by
  exact ⟨rfl, by decide⟩

/-- C2 amended: an `unref()` that leaves `refCount` positive does
nothing further; one that brings it to exactly 0 with `autoClose`
disabled returns silently (no close action, no notification); with
`autoClose` enabled it emits `close` immediately when the fd is not
open, and otherwise invokes `close()` (one OS close call), emitting
`close` on success and the failure as an `error` notification on
rejection. -/
theorem c2_amended_unref_close_policy (s : CS.V3.CoordState) :
    (1 < s.refCount → ∀ oc, CS.V3.unref oc s =
      ({ s with refCount := s.refCount - 1 }, [], 0)) ∧
    (s.refCount = 1 → s.autoClose = false → ∀ oc,
      CS.V3.unref oc s = ({ s with refCount := 0 }, [], 0)) ∧
    (s.refCount = 1 → s.autoClose = true → s.fd < 0 → ∀ oc,
      CS.V3.unref oc s = ({ s with refCount := 0 }, [CS.Ev.closeEv], 0)) ∧
    (s.refCount = 1 → s.autoClose = true → 0 ≤ s.fd →
      CS.V3.unref (.ok ()) s =
        ({ s with refCount := 0, fd := -1 }, [CS.Ev.closeEv], 1)) ∧
    (s.refCount = 1 → s.autoClose = true → 0 ≤ s.fd → ∀ e,
      CS.V3.unref (.error e) s =
        ({ s with refCount := 0 }, [CS.Ev.errorEv (CS.Err.os e)], 1)) := by
  refine ⟨?_, ?_, ?_, ?_, ?_⟩
  · intro h oc
    simp only [CS.V3.unref]
    split_ifs with h1 h2
    · exfalso; omega
    · rfl
    · exact absurd (Or.inl (by omega)) h2
    · exact absurd (Or.inl (by omega)) h2
  · intro h ha oc
    simp only [CS.V3.unref, h, ha]
    norm_num
  · intro h ha hfd oc
    rcases s with ⟨fd, rc, ac⟩
    replace h : rc = 1 := h
    replace ha : ac = true := ha
    replace hfd : fd < 0 := hfd
    subst h; subst ha
    norm_num [CS.V3.unref, hfd]
  · intro h ha hfd
    rcases s with ⟨fd, rc, ac⟩
    replace h : rc = 1 := h
    replace ha : ac = true := ha
    replace hfd : (0 : Int) ≤ fd := hfd
    subst h; subst ha
    norm_num [CS.V3.unref, CS.V3.close, show ¬ fd < 0 by omega]
  · intro h ha hfd e
    rcases s with ⟨fd, rc, ac⟩
    replace h : rc = 1 := h
    replace ha : ac = true := ha
    replace hfd : (0 : Int) ≤ fd := hfd
    subst h; subst ha
    norm_num [CS.V3.unref, CS.V3.close, show ¬ fd < 0 by omega]

/-- Witness for C2's amended statement at a concrete coordinator state:
`autoClose` enabled, fd open, OS close succeeding. -/
theorem c2_witness :
    (⟨7, 1, true⟩ : CS.V3.CoordState).refCount = 1 ∧
    CS.V3.unref (.ok ()) ⟨7, 1, true⟩ = (⟨-1, 0, true⟩, [CS.Ev.closeEv], 1) :=
  ⟨rfl, (c2_amended_unref_close_policy ⟨7, 1, true⟩).2.2.2.1 rfl rfl (by norm_num)⟩

/-- C1 counterexample: two concurrent first `read` calls against a
coordinator whose fd is not yet set, each scheduled for its synchronous
prefix before either OS open completes, invoke the OS open primitive
twice — the fd-already-set check runs concurrently with lock
acquisition (`Promise.all`), not under it, and read locks are shared. -/
theorem c1_counterexample :
    (CS.Race.run [0, 1] CS.Race.init).osOpens = 2 := by decide

/-- C1 amended: when the two first `read` calls run serially (the first
completes before the second starts), exactly one OS open call is
performed in total; and once the fd is set, no scheduler step of either
call ever invokes the OS open primitive again. -/
theorem c1_amended_serial_single_open :
    (CS.Race.run [0, 0, 0, 1, 1, 1] CS.Race.init).osOpens = 1 ∧
    (∀ (i : Fin 2) (s : CS.Race.Sys), 0 ≤ s.fd →
      (CS.Race.step i s).osOpens = s.osOpens) := by
  constructor
  · decide
  · intro i s h
    fin_cases i
    · simp only [CS.Race.step]
      cases s.pc0 <;> simp [h]
    · simp only [CS.Race.step]
      cases s.pc1 <;> simp [h]

/-- Witness for C1's amended statement: a step of a pending call on a
coordinator whose fd is already set performs no OS open. -/
theorem c1_witness :
    (0 : Int) ≤ (⟨3, 0, .start, .start⟩ : CS.Race.Sys).fd ∧
    (CS.Race.step 0 ⟨3, 0, .start, .start⟩).osOpens =
      (⟨3, 0, .start, .start⟩ : CS.Race.Sys).osOpens :=
  ⟨by decide, c1_amended_serial_single_open.2 0 ⟨3, 0, .start, .start⟩ (by decide)⟩

/-- C8 counterexample: a coordinator constructed with a caller-supplied
fd does produce an `open` notification later in its lifetime — after
auto-close resets the fd, a subsequent first read reopens and emits
`open`. -/
theorem c8_counterexample :
    c8Trace = [CS.Ev.closeEv, CS.Ev.openEv 7] ∧ CS.Ev.openEv 7 ∈ c8Trace := by
  decide

/-- C8 amended: `open()` is idempotent — whenever the fd is set, it
returns without invoking the OS open primitive and without emitting any
notification; consequently `read`/`write` against a set fd never emit
an `open` notification.  (An `open` notification only ever accompanies
a Coordinator-performed open, which can occur for a caller-supplied fd
once auto-close has reset it.) -/
theorem c8_amended_idempotent_open (s : CS.V3.CoordState)
    (osOpen : Except CS.OsErr Int) (h : 0 ≤ s.fd) :
    CS.V3.openFd osOpen s = ⟨s, [], 0, .ok ()⟩ ∧
    (∀ osRead f, CS.Ev.openEv f ∉ (CS.V3.read osOpen osRead s).events) ∧
    (∀ osWrite f, CS.Ev.openEv f ∉ (CS.V3.write osOpen osWrite s).events) := by
  have ho := v3_openFd_pos s osOpen h
  refine ⟨ho, ?_, ?_⟩
  · intro osRead f
    simp only [CS.V3.read, ho]
    cases osRead <;> simp
  · intro osWrite f
    simp only [CS.V3.write, ho]
    cases osWrite <;> simp

/-- Witness for C8's amended statement at a concrete coordinator state
with a caller-supplied fd. -/
theorem c8_witness :
    (0 : Int) ≤ (⟨5, 0, true⟩ : CS.V3.CoordState).fd ∧
    CS.V3.openFd (.ok 9) ⟨5, 0, true⟩ = ⟨⟨5, 0, true⟩, [], 0, .ok ()⟩ :=
  ⟨by decide, (c8_amended_idempotent_open ⟨5, 0, true⟩ (.ok 9) (by decide)).1⟩

/-- C3 counterexample: in the second-variant `readAsync`, a failing OS
read is caught, emitted as a bare `error` notification, and the call
resolves with `undefined` instead of a rejected outcome carrying the
failure. -/
theorem c3_counterexample :
    CS.V2.readAsync none (.ok 7) (.error 42) (some 3) =
      ⟨some 3, [CS.Ev.errorEv (CS.Err.os 42)], none, 0, 1, 1, 1, 0⟩ := rfl

/-- C3 amended: in the third-variant `read`/`write`, a failing OS open
or OS read/write is propagated to the caller as a rejected outcome, no
`error` notification is ever emitted from inside the call, and the lock
is acquired and released exactly once on every path (the second-variant
`readAsync`/`writeAsync` instead catch failures and emit them).  -/
theorem c3_amended_failures_propagate (s : CS.V3.CoordState)
    (osOpen : Except CS.OsErr Int) (osRead osWrite : Except CS.OsErr Nat) :
    (∀ e, s.fd < 0 → osOpen = .error e →
      (CS.V3.read osOpen osRead s).result = .error e ∧
      (CS.V3.write osOpen osWrite s).result = .error e) ∧
    (∀ e, osRead = .error e → (CS.V3.openFd osOpen s).result = .ok () →
      (CS.V3.read osOpen osRead s).result = .error e) ∧
    (∀ e, osWrite = .error e → (CS.V3.openFd osOpen s).result = .ok () →
      (CS.V3.write osOpen osWrite s).result = .error e) ∧
    (∀ er, CS.Ev.errorEv er ∉ (CS.V3.read osOpen osRead s).events) ∧
    (∀ er, CS.Ev.errorEv er ∉ (CS.V3.write osOpen osWrite s).events) ∧
    (CS.V3.read osOpen osRead s).lockAcquired = 1 ∧
    (CS.V3.read osOpen osRead s).lockReleased = 1 ∧
    (CS.V3.write osOpen osWrite s).lockAcquired = 1 ∧
    (CS.V3.write osOpen osWrite s).lockReleased = 1 := by
  refine ⟨?_, ?_, ?_, ?_, ?_, ?_, ?_, ?_, ?_⟩
  · intro e h1 h2
    have hfd : ¬ 0 ≤ s.fd := by omega
    subst h2
    constructor
    · simp [CS.V3.read, v3_openFd_neg_error s e hfd]
    · simp [CS.V3.write, v3_openFd_neg_error s e hfd]
  · intro e h1 h2
    subst h1
    by_cases hfd : 0 ≤ s.fd
    · simp [CS.V3.read, v3_openFd_pos s osOpen hfd]
    · cases osOpen with
      | error e0 =>
        rw [v3_openFd_neg_error s e0 hfd] at h2
        exact absurd h2 (by simp)
      | ok f => simp [CS.V3.read, v3_openFd_neg_ok s f hfd]
  · intro e h1 h2
    subst h1
    by_cases hfd : 0 ≤ s.fd
    · simp [CS.V3.write, v3_openFd_pos s osOpen hfd]
    · cases osOpen with
      | error e0 =>
        rw [v3_openFd_neg_error s e0 hfd] at h2
        exact absurd h2 (by simp)
      | ok f => simp [CS.V3.write, v3_openFd_neg_ok s f hfd]
  · intro er
    by_cases hfd : 0 ≤ s.fd
    · simp only [CS.V3.read, v3_openFd_pos s osOpen hfd]
      cases osRead <;> simp
    · cases osOpen with
      | error e0 => simp [CS.V3.read, v3_openFd_neg_error s e0 hfd]
      | ok f =>
        simp only [CS.V3.read, v3_openFd_neg_ok s f hfd]
        cases osRead <;> simp
  · intro er
    by_cases hfd : 0 ≤ s.fd
    · simp only [CS.V3.write, v3_openFd_pos s osOpen hfd]
      cases osWrite <;> simp
    · cases osOpen with
      | error e0 => simp [CS.V3.write, v3_openFd_neg_error s e0 hfd]
      | ok f =>
        simp only [CS.V3.write, v3_openFd_neg_ok s f hfd]
        cases osWrite <;> simp
  · by_cases hfd : 0 ≤ s.fd
    · simp only [CS.V3.read, v3_openFd_pos s osOpen hfd]
      cases osRead <;> simp
    · cases osOpen with
      | error e0 => simp [CS.V3.read, v3_openFd_neg_error s e0 hfd]
      | ok f =>
        simp only [CS.V3.read, v3_openFd_neg_ok s f hfd]
        cases osRead <;> simp
  · by_cases hfd : 0 ≤ s.fd
    · simp only [CS.V3.read, v3_openFd_pos s osOpen hfd]
      cases osRead <;> simp
    · cases osOpen with
      | error e0 => simp [CS.V3.read, v3_openFd_neg_error s e0 hfd]
      | ok f =>
        simp only [CS.V3.read, v3_openFd_neg_ok s f hfd]
        cases osRead <;> simp
  · by_cases hfd : 0 ≤ s.fd
    · simp only [CS.V3.write, v3_openFd_pos s osOpen hfd]
      cases osWrite <;> simp
    · cases osOpen with
      | error e0 => simp [CS.V3.write, v3_openFd_neg_error s e0 hfd]
      | ok f =>
        simp only [CS.V3.write, v3_openFd_neg_ok s f hfd]
        cases osWrite <;> simp
  · by_cases hfd : 0 ≤ s.fd
    · simp only [CS.V3.write, v3_openFd_pos s osOpen hfd]
      cases osWrite <;> simp
    · cases osOpen with
      | error e0 => simp [CS.V3.write, v3_openFd_neg_error s e0 hfd]
      | ok f =>
        simp only [CS.V3.write, v3_openFd_neg_ok s f hfd]
        cases osWrite <;> simp

/-- Witness for C3's amended statement: a concrete call whose OS read
fails is rejected with that failure, emits nothing, and releases the
lock. -/
theorem c3_witness :
    ((.error 9 : Except CS.OsErr Nat) = .error 9) ∧
    (CS.V3.openFd (.ok 7) ⟨4, 1, true⟩).result = .ok () ∧
    (CS.V3.read (.ok 7) (.error 9) ⟨4, 1, true⟩).result = .error 9 :=
  ⟨rfl, rfl,
    (c3_amended_failures_propagate ⟨4, 1, true⟩ (.ok 7) (.error 9) (.ok 0)).2.1
      9 rfl rfl⟩

/-- C6 counterexample: the second-variant `writeAsync` with a
cancellation predicate reporting true resolves with `undefined`
(modelled `none`) rather than with 0 bytes transferred; it does perform
no OS call and never touches the lock. -/
theorem c6_counterexample :
    CS.V2.writeAsync (some true) (.ok 7) (.ok 5) (some 3) =
      ⟨some 3, [], none, 0, 0, 0, 0, 1⟩ := rfl

/-- C6 amended: the first-variant `readAsync`/`writeAsync` with a
cancellation predicate reporting true return 0 bytes transferred,
perform no OS open and no OS read/write, emit nothing, never acquire
(or contend for) the lock, and evaluate the predicate exactly once
(before lock acquisition); the second-variant calls behave identically
except that they resolve with `undefined` instead of 0. -/
theorem c6_amended_cancellation (osOpen : Except CS.OsErr Int)
    (osRead osWrite : Except CS.OsErr Nat) (fd : Option Int) :
    CS.V1.readAsync (some true) osOpen osRead fd =
      ⟨fd, [], .ok 0, 0, 0, 0, 0, 1⟩ ∧
    CS.V1.writeAsync (some true) osOpen osWrite fd =
      ⟨fd, [], .ok 0, 0, 0, 0, 0, 1⟩ ∧
    CS.V2.readAsync (some true) osOpen osRead fd =
      ⟨fd, [], none, 0, 0, 0, 0, 1⟩ ∧
    CS.V2.writeAsync (some true) osOpen osWrite fd =
      ⟨fd, [], none, 0, 0, 0, 0, 1⟩ :=
  ⟨rfl, rfl, rfl, rfl⟩

/-- C4 counterexample: the claim's own success example — a 100-byte
payload at `start = 0` with `end = 99` — is rejected: the write step
aborts with `InvalidOffset` and performs no OS write, because the
boundary check `pos + length > end` fires at `100 > 99`. -/
theorem c4_counterexample :
    CS.WS1.actualWrite (.ok 100) 100 ⟨0, some 99, false, 0⟩ =
      ⟨⟨0, some 99, true, 0⟩, .failed CS.Err.invalidOffset, 0, []⟩ := rfl

/-- C4 amended: a chunk with `current + chunkLength > end` aborts with
`InvalidOffset` and performs no OS write; a chunk with
`current + chunkLength <= end` is written — one OS write call — and on
a successful write of `n` bytes `current` (and the running total)
advance by exactly `n`.  A 100-byte payload therefore needs
`end >= 100`, not `end = 99`. -/
theorem c4_amended_write_boundary (st : CS.WS1.WST) (len : Nat)
    (osW : Except CS.OsErr Nat) (hnc : st.closed = false) :
    (∀ e, st.endB = some e → e < st.pos + (len : Int) →
      CS.WS1.actualWrite osW len st =
        ⟨{ st with closed := true }, .failed CS.Err.invalidOffset, 0, []⟩) ∧
    (∀ e, st.endB = some e → st.pos + (len : Int) ≤ e →
      (CS.WS1.actualWrite osW len st).osWrites = 1 ∧
      (∀ n, osW = .ok n → CS.WS1.actualWrite osW len st =
        ⟨{ st with pos := st.pos + (n : Int),
                   bytesWritten := st.bytesWritten + (n : Int) },
          .success, 1, [st.bytesWritten + (n : Int)]⟩)) := by
  constructor
  · intro e he hlt
    simp [CS.WS1.actualWrite, hnc, CS.WS1.endExceeded, he, hlt]
  · intro e he hle
    have hx : CS.WS1.endExceeded (st.pos + (len : Int)) st.endB = false := by
      simp [CS.WS1.endExceeded, he]
      omega
    constructor
    · simp only [CS.WS1.actualWrite, hnc, hx]
      cases osW <;> simp
    · intro n hn
      subst hn
      simp [CS.WS1.actualWrite, hnc, hx]

/-- Witness for C4's amended statement, mirroring the repository's own
tests: a 100-byte payload at `start = 0` with `end = 100` succeeds and
advances the cursor to 100. -/
theorem c4_witness :
    (⟨0, some 100, false, 0⟩ : CS.WS1.WST).closed = false ∧
    (0 : Int) + (100 : Nat) ≤ 100 ∧
    CS.WS1.actualWrite (.ok 100) 100 ⟨0, some 100, false, 0⟩ =
      ⟨⟨100, some 100, false, 100⟩, .success, 1, [100]⟩ :=
  ⟨rfl, by norm_num,
    ((c4_amended_write_boundary ⟨0, some 100, false, 0⟩ 100 (.ok 100) rfl).2
      100 rfl (by norm_num)).2 100 rfl⟩

/-- C5: one `ReadStream` pull step requests exactly
`min(size, end - current + 1)` bytes when the end is bounded; a
non-positive clamped size finalizes the stream without any I/O; a read
of 0 bytes finalizes it (end of file); and a read of `k > 0` bytes
advances `current` by exactly `k` and delivers exactly `k` bytes
downstream, never padding to the requested size. -/
theorem c5_read_stream_pull (st : CS.RS.RSState) (size : Int)
    (osRead : Except CS.OsErr Nat) :
    (∀ e, st.endB = some e →
      CS.RS.toRead size st = min size (e - st.current + 1)) ∧
    (CS.RS.toRead size st ≤ 0 →
      CS.RS.readStep osRead size st =
        ⟨{ st with closed := true }, none, .finalized⟩) ∧
    (0 < CS.RS.toRead size st → osRead = .ok 0 →
      CS.RS.readStep osRead size st =
        ⟨{ st with closed := true }, some (CS.RS.toRead size st), .finalized⟩) ∧
    (∀ k, 0 < CS.RS.toRead size st → osRead = .ok k → 0 < k →
      (k : Int) ≤ CS.RS.toRead size st →
      CS.RS.readStep osRead size st =
        ⟨{ st with current := st.current + (k : Int) },
          some (CS.RS.toRead size st),
          .pushed (st.current + (k : Int)) (k : Int)⟩) := by
  refine ⟨?_, ?_, ?_, ?_⟩
  · intro e he
    simp [CS.RS.toRead, he]
  · intro h
    simp [CS.RS.readStep, h]
  · intro h h0
    subst h0
    simp only [CS.RS.readStep]
    rw [if_neg (by omega)]
  · intro k h hok hkpos hkle
    cases k with
    | zero => omega
    | succ j =>
      subst hok
      simp only [CS.RS.readStep]
      rw [if_neg (by omega)]
      have hd : (if ((j : Int) + 1) < CS.RS.toRead size st then ((j : Int) + 1)
          else CS.RS.toRead size st) = ((j : Int) + 1) := by
        rcases lt_or_ge ((j : Int) + 1) (CS.RS.toRead size st) with hlt | hge
        · rw [if_pos hlt]
        · rw [if_neg (by omega)]
          push_cast at hkle
          omega
      rw [hd]
      push_cast
      rfl

/-- Witness for C5 at a concrete pull: cursor 0, end bound 9, requested
size 100, OS read returning 4 bytes. -/
theorem c5_witness :
    (0 : Int) < CS.RS.toRead 100 ⟨0, some 9, false⟩ ∧
    CS.RS.readStep (.ok 4) 100 ⟨0, some 9, false⟩ =
      ⟨⟨4, some 9, false⟩, some 10, .pushed 4 4⟩ :=
  ⟨by decide,
    (c5_read_stream_pull ⟨0, some 9, false⟩ 100 (.ok 4)).2.2.2
      4 (by decide) rfl (by decide) (by decide)⟩

/-- C9 counterexample: `start = Infinity`, `end = 5` is an option pair
with `start > end` (in JS, `Infinity > 5`), yet construction fails with
a TypeError (the finiteness check fires first), not with the claimed
boundary RangeError. -/
theorem c9_counterexample :
    CS.JS.jsGt CS.JS.JSNum.inf (CS.JS.JSNum.fin 5) = true ∧
    CS.RS.applyDefaultOptions (some (.num .inf)) (some (.num (.fin 5))) =
      .error CS.JS.VError.typeErr ∧
    CS.JS.VError.typeErr ≠ CS.JS.VError.rangeErr := by
  refine ⟨rfl, rfl, by decide⟩

/-- C9 amended: for finite integral options with `0 <= start <= end`,
adapter construction succeeds (in both the read-stream validator and
the shared `util.ts` validator); for finite nonnegative options with
`start > end` it fails with a RangeError; wrong-type, `NaN` and
negative options fail rather than being silently defaulted; but a
non-finite `start` exceeding `end` fails with a TypeError, not a
RangeError. -/
theorem c9_amended_option_validation (ctx : CS.V3.CoordState) (a b : Int)
    (endO : Option CS.JS.JSVal) :
    (0 ≤ a → a ≤ b →
      CS.RS.construct ctx (some (.num (.fin a))) (some (.num (.fin b))) =
        ({ ctx with refCount := ctx.refCount + 1 }, .ok ⟨a, some b, false⟩) ∧
      CS.Util.applyDefaultOptions (some (.num (.fin a))) (some (.num (.fin b))) =
        .ok (.fin a, .fin b)) ∧
    (0 ≤ b → b < a →
      (CS.RS.construct ctx (some (.num (.fin a))) (some (.num (.fin b)))).2 =
        .error CS.JS.VError.rangeErr ∧
      CS.Util.applyDefaultOptions (some (.num (.fin a))) (some (.num (.fin b))) =
        .error CS.JS.VError.rangeErr) ∧
    ((CS.RS.construct ctx (some .notNum) endO).2 =
      .error CS.JS.VError.typeErr) ∧
    ((CS.RS.construct ctx (some (.num .nan)) endO).2 =
      .error CS.JS.VError.typeErr) ∧
    (a < 0 →
      (CS.RS.construct ctx (some (.num (.fin a))) none).2 =
        .error CS.JS.VError.rangeErr) := by
  refine ⟨?_, ?_, ?_, ?_, ?_⟩
  · intro ha hab
    have h1 : ¬ a < 0 := by omega
    have h2 : ¬ b < 0 := by omega
    have h3 : ¬ b < a := by omega
    constructor
    · simp [CS.RS.construct, CS.RS.applyDefaultOptions, CS.JS.isNaNb,
        CS.JS.ltZero, CS.JS.isFiniteB, CS.JS.jsGt, CS.JS.finVal,
        CS.JS.endBound, CS.V3.ref, h1, h2, h3]
    · simp [CS.Util.applyDefaultOptions, CS.JS.isNaNb, CS.JS.ltZero,
        CS.JS.isFiniteB, CS.JS.jsGt, h1, h2, h3]
  · intro hb hab
    have h1 : ¬ a < 0 := by omega
    have h2 : ¬ b < 0 := by omega
    constructor
    · simp [CS.RS.construct, CS.RS.applyDefaultOptions, CS.JS.isNaNb,
        CS.JS.ltZero, CS.JS.isFiniteB, CS.JS.jsGt, h1, h2, hab]
    · simp [CS.Util.applyDefaultOptions, CS.JS.isNaNb, CS.JS.ltZero,
        CS.JS.isFiniteB, CS.JS.jsGt, h1, h2, hab]
  · simp [CS.RS.construct, CS.RS.applyDefaultOptions]
  · simp [CS.RS.construct, CS.RS.applyDefaultOptions, CS.JS.isNaNb]
  · intro ha
    simp [CS.RS.construct, CS.RS.applyDefaultOptions, CS.JS.isNaNb,
      CS.JS.ltZero, ha]

/-- Witness for C9's amended statement at the concrete valid range
`start = 0`, `end = 99`. -/
theorem c9_witness :
    (0 : Int) ≤ 0 ∧ (0 : Int) ≤ 99 ∧
    CS.RS.construct ⟨-1, 0, true⟩ (some (.num (.fin 0)))
        (some (.num (.fin 99))) =
      (⟨-1, 1, true⟩, .ok ⟨0, some 99, false⟩) :=
  ⟨le_refl 0, by norm_num,
    ((c9_amended_option_validation ⟨-1, 0, true⟩ 0 99 none).1
      (le_refl 0) (by norm_num)).1⟩

/-- C10: both adapter constructors call the coordinator's `ref()`
before validating their options, so a construction attempt whose
validation throws leaves the coordinator's `refCount` permanently
incremented by one — failed adapter construction is not atomic with
respect to the reference count. -/
theorem c10_ref_leak_on_invalid_options (ctx : CS.V3.CoordState)
    (startO endO : Option CS.JS.JSVal) (encOk : Option Bool)
    (startW : Option CS.JS.JSVal) (e1 e2 : CS.JS.VError)
    (h1 : CS.RS.applyDefaultOptions startO endO = .error e1)
    (h2 : CS.WS2.applyDefaultOptions encOk startW = .error e2) :
    CS.RS.construct ctx startO endO =
      ({ ctx with refCount := ctx.refCount + 1 }, .error e1) ∧
    CS.WS2.construct ctx encOk startW =
      ({ ctx with refCount := ctx.refCount + 1 }, .error e2) := by
  constructor
  · simp [CS.RS.construct, CS.V3.ref, h1]
  · simp [CS.WS2.construct, CS.V3.ref, h2]

/-- Witness for C10 at concrete malformed options: a non-number `start`
for the read adapter and an invalid encoding for the write adapter each
leave the coordinator's refCount at 1 with no adapter constructed. -/
theorem c10_witness :
    CS.RS.applyDefaultOptions (some .notNum) none =
      .error CS.JS.VError.typeErr ∧
    CS.WS2.applyDefaultOptions (some false) none =
      .error CS.JS.VError.typeErr ∧
    CS.RS.construct ⟨-1, 0, true⟩ (some .notNum) none =
      (⟨-1, 1, true⟩, .error CS.JS.VError.typeErr) ∧
    CS.WS2.construct ⟨-1, 0, true⟩ (some false) none =
      (⟨-1, 1, true⟩, .error CS.JS.VError.typeErr) := by
  refine ⟨rfl, rfl, ?_, ?_⟩
  · exact (c10_ref_leak_on_invalid_options ⟨-1, 0, true⟩ (some .notNum) none
      (some false) none _ _ rfl rfl).1
  · exact (c10_ref_leak_on_invalid_options ⟨-1, 0, true⟩ (some .notNum) none
      (some false) none _ _ rfl rfl).2
